import Mathlib

/-!
Verification development for the synapse application-service subsystem
(src/synapse/handlers/appservice.py) and its dependency checker
(src/synapse/python_dependencies.py).

Pure functions of the source are embedded as Lean functions; stateful code
is embedded by explicit state passing.  External collaborators (the
persistent registry store, the Python regular-expression engine, the
installed-package environment) are modelled as explicit oracles or small
executable models, documented at each definition.
-/

namespace Synapse

/-! ## Regular expressions

Modelled from the spec: each namespace carries "a regular-expression
pattern" which is "used as a full-match regular expression (anchored
implicitly at both ends)".  The concrete engine (Python's re module) is
outside the repository, so we model the pattern language by a small regex
AST with a Brzozowski-derivative full-match semantics, together with a
parser from pattern strings (literals, the dot wildcard, star, alternation,
grouping, backslash escapes); a pattern string on which the parser fails
models a "malformed (uncompilable) namespace pattern". -/

inductive Regex where
  | emp : Regex
  | eps : Regex
  | chr : Char → Regex
  | dot : Regex
  | alt : Regex → Regex → Regex
  | cat : Regex → Regex → Regex
  | star : Regex → Regex
deriving DecidableEq

/-- Whether the regex accepts the empty string. -/
def Regex.nullable : Regex → Bool
  | .emp => false
  | .eps => true
  | .chr _ => false
  | .dot => false
  | .alt r s => r.nullable || s.nullable
  | .cat r s => r.nullable && s.nullable
  | .star _ => true

/-- Brzozowski derivative of a regex with respect to one character. -/
def Regex.deriv : Regex → Char → Regex
  | .emp, _ => .emp
  | .eps, _ => .emp
  | .chr c, a => if a = c then .eps else .emp
  | .dot, _ => .eps
  | .alt r s, a => .alt (r.deriv a) (s.deriv a)
  | .cat r s, a =>
    if r.nullable then .alt (.cat (r.deriv a) s) (s.deriv a)
    else .cat (r.deriv a) s
  | .star r, a => .cat (r.deriv a) (.star r)

/-- Full match of a regex against a list of characters. -/
def Regex.matchList : Regex → List Char → Bool
  | r, [] => r.nullable
  | r, c :: cs => (r.deriv c).matchList cs

/-- Full match of a regex against a string: the whole string must be in the
language (the pattern is anchored implicitly at both ends). -/
def fullMatch (r : Regex) (s : String) : Bool :=
  r.matchList s.data

mutual

/-- Parse an alternation (lowest precedence).  Fuel-indexed recursive
descent; returns the parsed regex and the unconsumed input. -/
def parseAlt : Nat → List Char → Option (Regex × List Char)
  | 0, _ => none
  | n + 1, cs =>
    match parseCat n cs with
    | none => none
    | some (r, rest) =>
      match rest with
      | '|' :: rest2 =>
        match parseAlt n rest2 with
        | none => none
        | some (s, rest3) => some (.alt r s, rest3)
      | _ => some (r, rest)

/-- Parse a (possibly empty) concatenation of repeated atoms. -/
def parseCat : Nat → List Char → Option (Regex × List Char)
  | 0, _ => none
  | n + 1, cs =>
    match cs with
    | [] => some (.eps, [])
    | ')' :: _ => some (.eps, cs)
    | '|' :: _ => some (.eps, cs)
    | _ =>
      match parseRep n cs with
      | none => none
      | some (r, rest) =>
        match parseCat n rest with
        | none => none
        | some (s, rest2) => some (.cat r s, rest2)

/-- Parse an atom with an optional star postfix. -/
def parseRep : Nat → List Char → Option (Regex × List Char)
  | 0, _ => none
  | n + 1, cs =>
    match parseAtom n cs with
    | none => none
    | some (r, rest) =>
      match rest with
      | '*' :: rest2 => some (.star r, rest2)
      | _ => some (r, rest)

/-- Parse an atom: a wildcard, a group, an escaped character or a literal
character.  A dangling metacharacter fails. -/
def parseAtom : Nat → List Char → Option (Regex × List Char)
  | 0, _ => none
  | n + 1, cs =>
    match cs with
    | [] => none
    | '(' :: rest =>
      match parseAlt n rest with
      | none => none
      | some (r, rest2) =>
        match rest2 with
        | ')' :: rest3 => some (r, rest3)
        | _ => none
    | ')' :: _ => none
    | '|' :: _ => none
    | '*' :: _ => none
    | '.' :: rest => some (.dot, rest)
    | '\\' :: c :: rest => some (.chr c, rest)
    | '\\' :: [] => none
    | c :: rest => some (.chr c, rest)

end

/-- Compile a pattern string to a regex; none models an uncompilable
(malformed) pattern, on which the engine's compilation step fails. -/
def compileRegex (s : String) : Option Regex :=
  match parseAlt (4 * s.length + 4) s.data with
  | some (r, []) => some r
  | _ => none

/-! ## Data model -/

/-- Namespace kinds, from the spec's data model: kind is user, room or
alias. -/
inductive NSKind where
  | user : NSKind
  | room : NSKind
  | roomAlias : NSKind
deriving DecidableEq

/-- A namespace as held by a live ApplicationService: kind, compiled
pattern, exclusivity flag (spec data model; the spec's design notes say
compiled patterns are stored per namespace at registration time). -/
structure ASNamespace where
  kind : NSKind
  regex : Regex
  exclusive : Bool
deriving DecidableEq

/-- An event as this subsystem consumes it: room identifier, sender
identifier, and the other user identifiers referenced in the event content
(such as invite targets); the subsystem never mutates events. -/
structure Event where
  room_id : String
  sender : String
  otherUsers : List String
deriving DecidableEq

/-- A registered application service as used by the matcher: token, base
URL, list of namespaces. -/
structure AppService where
  token : String
  url : String
  namespaces : List ASNamespace
deriving DecidableEq

/-! ## Interest Matcher

The source's get_services_for_event filters the stored services with
s.is_interested(event, alias_list); the ApplicationService.is_interested
method itself is not part of this repository's sources, so the matching
predicate is modelled from the spec. -/

/-- Modelled from the spec: whether one namespace matches the event with
the supplied aliases.  For kind room, test the event's room identifier
against the pattern; for kind user, test the sender identifier and the
other user identifiers referenced in the event; for kind alias, test each
alias in knownAliases.  Matching is a case-sensitive full match. -/
def nsMatches (ns : ASNamespace) (event : Event) (knownAliases : List String) : Bool :=
  match ns.kind with
  | .room => fullMatch ns.regex event.room_id
  | .user => fullMatch ns.regex event.sender
      || event.otherUsers.any (fun u => fullMatch ns.regex u)
  | .roomAlias => knownAliases.any (fun a => fullMatch ns.regex a)

/-- Modelled from the spec: a service is interested if any namespace of any
kind matches (the is_interested predicate the source's
get_services_for_event invokes, which is not under this repository's
sources). -/
def is_interested (s : AppService) (event : Event) (knownAliases : List String) : Bool :=
  s.namespaces.any (fun ns => nsMatches ns event knownAliases)

/-- The spec's Matcher contract interestedServices(event, knownAliases):
filter the registry snapshot by interest, as the source's
get_services_for_event does with its stored service list. -/
def interestedServices (services : List AppService) (event : Event)
    (knownAliases : List String) : List AppService :=
  services.filter (fun s => is_interested s event knownAliases)

/-- Handler state visible to get_services_for_event: the store's current
list of application services (self.store.get_app_services()). -/
structure HandlerState where
  services : List AppService

/-- Embeds ApplicationServicesHandler.get_services_for_event: the alias
list is left empty (a TODO in the source) and the stored services are
filtered by is_interested.  State-passing form: the call only reads the
store, so the state is returned unchanged. -/
def get_services_for_event (st : HandlerState) (event : Event) :
    List AppService × HandlerState :=
  let alias_list : List String := []
  (st.services.filter (fun s => is_interested s event alias_list), st)

/-! ## Registry

ApplicationServicesHandler.register and .unregister, over a model of the
external store.  The store itself (synapse.storage) and the errors module
are not part of this repository's sources; their interface is modelled
from the spec: getByToken either returns a record, returns nothing, raises
a StoreError (a store-level logical error such as not-found), or fails
with an infrastructure error when the store is unavailable (the spec's
error taxonomy distinguishes an unrecognised token from store
unavailability, which is a transient error, not a StoreError). -/

/-- A namespace as it appears in a registration record: the pattern is a
raw string, not yet compiled. -/
structure NamespaceDecl where
  kind : NSKind
  pattern : String
  exclusive : Bool
deriving DecidableEq

/-- A service record as submitted to register: identifier token, base
delivery URL, declared namespaces. -/
structure ServiceRecord where
  token : String
  url : String
  namespaces : List NamespaceDecl
deriving DecidableEq

/-- Exceptions the store can raise: a StoreError (the class register
catches) or an infrastructure failure raised while the store is
unavailable, which is not a StoreError. -/
inductive StoreExn where
  | storeError (code : Nat) : StoreExn
  | unavailable : StoreExn
deriving DecidableEq

/-- The external store: its records keyed by token, and an oracle giving
the exception (if any) that a lookup of a given token raises. -/
structure AppStore where
  records : List (String × ServiceRecord)
  lookupExn : String → Option StoreExn

/-- Modelled from the spec: the store's getByToken(token), returning a
record or nothing, or failing with the oracle's exception. -/
def get_app_service_by_token (st : AppStore) (token : String) :
    Except StoreExn (Option ServiceRecord) :=
  match st.lookupExn token with
  | some e => .error e
  | none => .ok (st.records.lookup token)

/-- Modelled from the spec: the store's upsert(record) - persist or update
the record under its token. -/
def update_app_service (st : AppStore) (r : ServiceRecord) : AppStore :=
  { st with records :=
      (r.token, r) :: st.records.filter (fun p => p.1 ≠ r.token) }

/-- Outcome of a call to register as seen by the caller. -/
inductive RegisterOutcome where
  | ok : RegisterOutcome
  | synapseError (code : Nat) (errcode : String) : RegisterOutcome
  | uncaught (e : StoreExn) : RegisterOutcome
deriving DecidableEq

/-- Embeds ApplicationServicesHandler.register: look the token up in the
store; if the lookup raises a StoreError, or returns no record (the source
then raises StoreError(404), caught by the same handler), re-raise
SynapseError(403, FORBIDDEN); a non-StoreError exception propagates
uncaught; on success persist the record via update_app_service. -/
def register (st : AppStore) (app_service : ServiceRecord) :
    RegisterOutcome × AppStore :=
  match get_app_service_by_token st app_service.token with
  | .ok (some _) => (.ok, update_app_service st app_service)
  | .ok none => (.synapseError 403 "M_FORBIDDEN", st)
  | .error (.storeError _) => (.synapseError 403 "M_FORBIDDEN", st)
  | .error .unavailable => (.uncaught .unavailable, st)

/-- A Python generator object, as returned by calling a generator function:
the body has not run. -/
inductive PyGen where
  | gen (token : String) : PyGen
deriving DecidableEq

/-- Embeds ApplicationServicesHandler.unregister as the source has it: the
body contains a yield but the method carries no inlineCallbacks decorator
(register does), so in Python it is a generator function - calling it
creates a generator object and executes none of the body.  The store call
inside it never runs and the store is returned unchanged. -/
def unregister (st : AppStore) (token : String) : PyGen × AppStore :=
  (.gen token, st)

/-- Modelled from the spec: what unregister's body would perform were it
actually driven - the store's delete(token), removing the record,
idempotent in the token's absence. -/
def unregister_body (st : AppStore) (token : String) : AppStore :=
  { st with records := st.records.filter (fun p => p.1 ≠ token) }

/-! ## Dispatcher

The source's notify_interested_services carries only TODO comments (its
body is pass): the DispatchQueue, Transaction and flush machinery of the
spec's Dispatcher are missing from this repository's sources, so they are
modelled from the spec. -/

/-- Dispatcher state: the per-service FIFO DispatchQueue and the
per-service flag recording whether a flush is scheduled. -/
structure DispatchState where
  queue : AppService → List Event
  scheduled : AppService → Bool

/-- Modelled from the spec: notify(event) enqueues the event onto the
DispatchQueue of every service returned by the Matcher and schedules a
flush for each affected queue if not already scheduled, then returns.  The
push transport available to the Dispatcher is taken as an argument so that
theorems can state that notify never invokes it (notify only mutates the
in-memory queues and scheduling flags; delivery is asynchronous). -/
def notify (push : AppService → List Event → Bool) (services : List AppService)
    (st : DispatchState) (event : Event) (knownAliases : List String) :
    DispatchState :=
  let _ := push
  let interested := interestedServices services event knownAliases
  { queue := fun s => if s ∈ interested then st.queue s ++ [event] else st.queue s
    scheduled := fun s => if s ∈ interested then true else st.scheduled s }

/-- Modelled from the spec: one flush attempt on one service's queue.  A
Transaction is built by draining the queue up to the maximum batch size,
preserving order; on transport success the Transaction's events are the
sent batch and are discarded from the queue; on transport failure nothing
is sent and the Transaction's events are re-prepended to the queue head,
preserving their original ordering. -/
def flushOnce (maxBatch : Nat) (q : List Event) (success : Bool) :
    Option (List Event) × List Event :=
  let txn := q.take maxBatch
  if success then (some txn, q.drop maxBatch) else (none, txn ++ q.drop maxBatch)

/-! ## Dependency checking (src/synapse/python_dependencies.py)

The installed-package environment (pkg_resources) is external: it is
modelled as an oracle giving, for each requirement specifier string,
whether its environment marker requires it here (req.marker is None or
evaluates true) and what get_provider finds for it. -/

/-- The CONDITIONAL_REQUIREMENTS dict, in insertion order: optional
feature name to its list of requirement specifiers. -/
def CONDITIONAL_REQUIREMENTS : List (String × List String) :=
  [("matrix-synapse-ldap3", ["matrix-synapse-ldap3>=0.1"]),
   ("postgres",
    ["psycopg2>=2.8 ; platform_python_implementation != \x27PyPy\x27",
     "psycopg2cffi>=2.8 ; platform_python_implementation == \x27PyPy\x27",
     "psycopg2cffi-compat==1.1 ; platform_python_implementation == \x27PyPy\x27"]),
   ("saml2", ["pysaml2>=4.5.0"]),
   ("oidc", ["authlib>=0.14.0"]),
   ("systemd", ["systemd-python>=231"]),
   ("url_preview", ["lxml>=4.2.0"]),
   ("sentry", ["sentry-sdk>=0.7.2"]),
   ("opentracing", ["jaeger-client>=4.0.0", "opentracing>=2.2.0"]),
   ("jwt", ["pyjwt>=1.6.4"]),
   ("redis", ["txredisapi>=1.4.7", "hiredis"]),
   ("cache_memory", ["pympler"])]

/-- Embeds the module-level loop building ALL_OPTIONAL_REQUIREMENTS: fold
over the dict entries, excluding the systemd entry, unioning each
specifier list into the set. -/
def ALL_OPTIONAL_REQUIREMENTS : Finset String :=
  CONDITIONAL_REQUIREMENTS.foldl
    (fun acc p => if p.1 ∉ ["systemd"] then p.2.toFinset ∪ acc else acc) ∅

/-- What the environment reports for one requirement specifier: installed
and satisfying the specifier, installed with a conflicting version, or not
installed. -/
inductive InstallState where
  | installed : InstallState
  | wrongVersion (name version : String) : InstallState
  | notFound : InstallState
deriving DecidableEq

/-- The installed-package environment oracle. markerRequired d is false
exactly when d's environment marker is present and evaluates false;
installState d is what get_provider finds. -/
structure PkgEnv where
  markerRequired : String → Bool
  installState : String → InstallState

/-- Errors _check_requirement can raise. -/
inductive ReqError where
  | versionConflict (name version : String) : ReqError
  | distributionNotFound : ReqError
deriving DecidableEq

/-- Embeds _check_requirement: if the specifier's marker says it is not
required for this environment, return silently; otherwise get_provider
raises VersionConflict when installed with the wrong version and
DistributionNotFound when nothing provides it. -/
def check_requirement (env : PkgEnv) (dependency_string : String) :
    Option ReqError :=
  if env.markerRequired dependency_string then
    match env.installState dependency_string with
    | .installed => none
    | .wrongVersion n v => some (.versionConflict n v)
    | .notFound => some .distributionNotFound
  else none

/-- Whether a _check_requirement outcome is a VersionConflict (in the
optional-dependency sweep, DistributionNotFound is ignored). -/
def isVersionConflict : Option ReqError → Bool
  | some (.versionConflict _ _) => true
  | _ => false

/-- How check_requirements can fail: raising DependencyException with the
collected deps_needed, or a KeyError when for_feature is not a key of
CONDITIONAL_REQUIREMENTS. -/
inductive CheckFailure where
  | dependencyException (deps_needed : List String) : CheckFailure
  | keyError (feature : String) : CheckFailure
deriving DecidableEq

/-- Embeds check_requirements.  With for_feature set, the feature's
specifier list is scanned and every specifier on which _check_requirement
raises (VersionConflict or DistributionNotFound) is collected into
deps_needed; without for_feature, REQUIREMENTS (absent from this
repository's sources, so taken as a parameter) is scanned the same way and
then every optional specifier is scanned collecting only VersionConflicts.
DependencyException is raised iff deps_needed is non-empty. -/
def check_requirements (env : PkgEnv) (REQUIREMENTS : List String)
    (for_feature : Option String) : Except CheckFailure Unit :=
  match for_feature with
  | some f =>
    match CONDITIONAL_REQUIREMENTS.lookup f with
    | none => .error (.keyError f)
    | some reqs =>
      let deps_needed := reqs.filter (fun d => (check_requirement env d).isSome)
      if deps_needed.isEmpty then .ok ()
      else .error (.dependencyException deps_needed)
  | none =>
    let deps_needed := REQUIREMENTS.filter (fun d => (check_requirement env d).isSome)
    let OPTS := (CONDITIONAL_REQUIREMENTS.map Prod.snd).flatten
    let deps_needed := deps_needed ++
      OPTS.filter (fun d => isVersionConflict (check_requirement env d))
    if deps_needed.isEmpty then .ok ()
    else .error (.dependencyException deps_needed)

/-! ## Concrete example data (used by witnesses and counterexamples) -/

/-- Example namespace: room kind, pattern !foo.* (the spec's scenario). -/
def exNamespace : ASNamespace :=
  ⟨.room, (compileRegex "!foo.*").getD .emp, false⟩

/-- Example registered service. -/
def exService : AppService := ⟨"tok1", "http://as.example", [exNamespace]⟩

/-- Example second service, a user namespace. -/
def exService2 : AppService :=
  ⟨"tok2", "http://as2.example", [⟨.user, (compileRegex "@irc_.*").getD .emp, true⟩]⟩

/-- Example event in the room the pattern claims. -/
def exEvent : Event := ⟨"!foo:example.org", "@alice:example.org", []⟩

/-- Example event e1. -/
def e1 : Event := ⟨"!r:x", "@a:x", []⟩

/-- Example event e2. -/
def e2 : Event := ⟨"!r:x", "@b:x", []⟩

/-- Example event e3. -/
def e3 : Event := ⟨"!r:x", "@c:x", []⟩

/-- Example registration record with a well-formed pattern. -/
def exRecord : ServiceRecord :=
  ⟨"tok1", "http://as.example", [⟨.room, "!foo.*", false⟩]⟩

/-- Example registration record whose namespace pattern ( does not
compile. -/
def malformedRecord : ServiceRecord :=
  ⟨"tok1", "http://as.example", [⟨.room, "(", false⟩]⟩

/-- Example store holding exRecord under token tok1, raising nothing. -/
def exStore : AppStore := ⟨[("tok1", exRecord)], fun _ => none⟩

/-- Example store with no records, raising nothing: every token is
unrecognised. -/
def exStoreEmpty : AppStore := ⟨[], fun _ => none⟩

/-- Example store whose lookups fail with an infrastructure error: the
store is unavailable. -/
def exStoreDown : AppStore := ⟨[], fun _ => some .unavailable⟩

/-- Example package environment in which every specifier is required and
nothing is installed. -/
def envAllMissing : PkgEnv := ⟨fun _ => true, fun _ => .notFound⟩

/-- Example package environment in which everything is installed and
satisfying. -/
def envAllInstalled : PkgEnv := ⟨fun _ => true, fun _ => .installed⟩

/-! ## Theorems -/

/-- One namespace matches iff its kind-specific pattern full-matches the
corresponding identifier. -/
theorem nsMatches_iff (ns : ASNamespace) (event : Event)
    (knownAliases : List String) :
    nsMatches ns event knownAliases = true ↔
      (ns.kind = .room ∧ fullMatch ns.regex event.room_id = true) ∨
      (ns.kind = .user ∧ (fullMatch ns.regex event.sender = true ∨
        ∃ u ∈ event.otherUsers, fullMatch ns.regex u = true)) ∨
      (ns.kind = .roomAlias ∧ ∃ a ∈ knownAliases, fullMatch ns.regex a = true) := by
  obtain ⟨k, r, ex⟩ := ns
  cases k <;> simp [nsMatches, List.any_eq_true]

/-- Claim C2: a service appears in interestedServices(event, knownAliases)
iff at least one of its namespaces matches: a room-kind pattern
full-matches the event's room identifier, a user-kind pattern full-matches
the sender identifier (or another user identifier referenced in the
event), or an alias-kind pattern full-matches some alias in the supplied
knownAliases. -/
theorem interested_iff (services : List AppService) (event : Event)
    (knownAliases : List String) (s : AppService) :
    s ∈ interestedServices services event knownAliases ↔
      s ∈ services ∧ ∃ ns ∈ s.namespaces,
        (ns.kind = .room ∧ fullMatch ns.regex event.room_id = true) ∨
        (ns.kind = .user ∧ (fullMatch ns.regex event.sender = true ∨
          ∃ u ∈ event.otherUsers, fullMatch ns.regex u = true)) ∨
        (ns.kind = .roomAlias ∧ ∃ a ∈ knownAliases, fullMatch ns.regex a = true) := by
  rw [interestedServices, List.mem_filter, is_interested, List.any_eq_true]
  constructor
  · rintro ⟨hmem, ns, hns, hm⟩
    exact ⟨hmem, ns, hns, (nsMatches_iff ns event knownAliases).mp hm⟩
  · rintro ⟨hmem, ns, hns, h⟩
    exact ⟨hmem, ns, hns, (nsMatches_iff ns event knownAliases).mpr h⟩

/-- Claim C5: the matcher is a pure, deterministic function of the event,
the supplied aliases and the registry snapshot: equal inputs yield equal
results, permuting the services leaves the result set unchanged, permuting
a service's namespaces leaves its interest unchanged, and the call leaves
the handler state untouched. -/
theorem matcher_pure (services services' : List AppService)
    (event event' : Event) (as₁ as₂ : List String)
    (hs : services.Perm services') (he : event = event') (ha : as₁ = as₂)
    (s : AppService) (nsp : List ASNamespace) (hp : s.namespaces.Perm nsp)
    (hst : HandlerState) (x : AppService) :
    interestedServices services event as₁ = interestedServices services event' as₂ ∧
    (x ∈ interestedServices services event as₁ ↔
      x ∈ interestedServices services' event as₁) ∧
    is_interested s event as₁ = is_interested ⟨s.token, s.url, nsp⟩ event as₁ ∧
    (get_services_for_event hst event).2 = hst := by
  refine ⟨by rw [he, ha], (hs.filter _).mem_iff, ?_, rfl⟩
  rw [is_interested, is_interested]
  refine Bool.eq_iff_iff.mpr ?_
  rw [List.any_eq_true, List.any_eq_true]
  constructor
  · rintro ⟨ns, hns, h⟩
    exact ⟨ns, hp.mem_iff.mp hns, h⟩
  · rintro ⟨ns, hns, h⟩
    exact ⟨ns, hp.mem_iff.mpr hns, h⟩

/-- Witness for matcher_pure at concrete inputs: two services listed in
either order, a service's namespace list permuted (here a singleton), and
a concrete handler state. -/
theorem matcher_pure_witness :
    interestedServices [exService, exService2] exEvent [] =
      interestedServices [exService, exService2] exEvent [] ∧
    (exService ∈ interestedServices [exService, exService2] exEvent [] ↔
      exService ∈ interestedServices [exService2, exService] exEvent []) ∧
    is_interested exService exEvent [] =
      is_interested ⟨exService.token, exService.url, [exNamespace]⟩ exEvent [] ∧
    (get_services_for_event ⟨[exService, exService2]⟩ exEvent).2 =
      ⟨[exService, exService2]⟩ :=
  matcher_pure [exService, exService2] [exService2, exService] exEvent exEvent
    [] [] (List.Perm.swap exService2 exService []) rfl rfl
    exService [exNamespace] (List.Perm.refl _) ⟨[exService, exService2]⟩ exService

/-- Claim C1: notify(event) appends the event to the DispatchQueue of
every service returned by the Matcher, marks a flush as scheduled for each
affected queue, leaves every other queue and flag unchanged, and performs
no delivery or network operation: its result is the same whatever the push
transport is, so it never blocks on delivery. -/
theorem notify_contract (push push' : AppService → List Event → Bool)
    (services : List AppService) (st : DispatchState) (event : Event)
    (knownAliases : List String) (s : AppService) :
    notify push services st event knownAliases =
      notify push' services st event knownAliases ∧
    ((notify push services st event knownAliases).queue s =
      if s ∈ interestedServices services event knownAliases
      then st.queue s ++ [event] else st.queue s) ∧
    ((notify push services st event knownAliases).scheduled s =
      if s ∈ interestedServices services event knownAliases
      then true else st.scheduled s) :=
  ⟨rfl, rfl, rfl⟩

/-- Claim C3: on transport failure the Transaction's events are
re-prepended to the head of the queue, restoring it exactly (no event
lost, reordered or duplicated), and the next successful flush - with any
later-queued events appended behind - sends exactly the same events in the
same order as the failed attempt. -/
theorem flush_failure_retry (maxBatch : Nat) (q later : List Event)
    (hb : maxBatch ≤ q.length) :
    (flushOnce maxBatch q false).1 = none ∧
    (flushOnce maxBatch q false).2 = q ∧
    (flushOnce maxBatch ((flushOnce maxBatch q false).2 ++ later) true).1 =
      some (q.take maxBatch) := by
  refine ⟨by simp [flushOnce], by simp [flushOnce], ?_⟩
  simp only [flushOnce, if_neg, if_pos, List.take_append_drop]
  simp [List.take_append_of_le_length hb]

/-- Witness for flush_failure_retry: batch size 1, queue [e1, e2], later
arrival e3; the failed transaction [e1] is resent exactly. -/
theorem flush_failure_retry_witness :
    (flushOnce 1 [e1, e2] false).1 = none ∧
    (flushOnce 1 [e1, e2] false).2 = [e1, e2] ∧
    (flushOnce 1 ((flushOnce 1 [e1, e2] false).2 ++ [e3]) true).1 =
      some ([e1, e2].take 1) :=
  flush_failure_retry 1 [e1, e2] [e3] (by decide)

/-- Claim C4: register validates the token against the store - when the
store returns a record for the token, register persists/updates the
submitted record; when the token is unrecognised (the store returns no
record), register fails synchronously with SynapseError 403 FORBIDDEN and
leaves the store unchanged. -/
theorem register_token_validation (st : AppStore) (r : ServiceRecord) :
    (∀ rec, get_app_service_by_token st r.token = .ok (some rec) →
      register st r = (.ok, update_app_service st r)) ∧
    (get_app_service_by_token st r.token = .ok none →
      register st r = (.synapseError 403 "M_FORBIDDEN", st)) := by
  constructor
  · intro rec h
    simp [register, h]
  · intro h
    simp [register, h]

/-- Witness for register_token_validation: a store holding tok1 accepts
and persists exRecord; the empty store rejects it with 403. -/
theorem register_token_validation_witness :
    register exStore exRecord = (.ok, update_app_service exStore exRecord) ∧
    register exStoreEmpty exRecord =
      (.synapseError 403 "M_FORBIDDEN", exStoreEmpty) :=
  ⟨(register_token_validation exStore exRecord).1 exRecord rfl,
   (register_token_validation exStoreEmpty exRecord).2 rfl⟩

/-- Claim C6, the code's actual behaviour at a failing input: unregister
has a yield in its body but no inlineCallbacks decorator, so calling it
creates a generator and runs nothing - the store is unchanged and the
record for tok1 is still present, whereas the store delete the body was
meant to drive (unregister_body) would have removed it. -/
theorem unregister_noop_bug :
    (unregister exStore "tok1").2 = exStore ∧
    (unregister exStore "tok1").2.records.lookup "tok1" = some exRecord ∧
    (unregister_body exStore "tok1").records.lookup "tok1" = none :=
  ⟨rfl, rfl, by decide⟩

/-- Claim C7 counterexample: the pattern ( is uncompilable, yet register -
which never inspects namespaces - accepts and persists a record containing
it once the token is recognised, instead of rejecting the record at
registration time. -/
theorem register_accepts_malformed :
    compileRegex "(" = none ∧
    (register exStore malformedRecord).1 = .ok ∧
    (register exStore malformedRecord).2.records.lookup "tok1" =
      some malformedRecord :=
  ⟨by decide, rfl, rfl⟩

/-- Claim C7 amended: register validates only the token and ignores the
declared namespaces entirely - its outcome is unchanged under any
replacement of the record's namespace list, and a record whose token is
recognised is persisted whatever its patterns are, so malformed patterns
are not detected at registration time. -/
theorem register_ignores_patterns (st : AppStore) (r : ServiceRecord)
    (ns : List NamespaceDecl) :
    (register st r).1 = (register st { r with namespaces := ns }).1 ∧
    (∀ rec, get_app_service_by_token st r.token = .ok (some rec) →
      (register st r).1 = .ok ∧
      (register st r).2 = update_app_service st r) := by
  constructor
  · cases h : get_app_service_by_token st r.token with
    | ok o => cases o <;> simp [register, h]
    | error e => cases e <;> simp [register, h]
  · intro rec h
    simp [register, h]

/-- Witness for register_ignores_patterns: the malformed record's outcome
matches the outcome with its namespaces stripped, and it is accepted by
the store that recognises tok1. -/
theorem register_ignores_patterns_witness :
    (register exStore malformedRecord).1 =
      (register exStore { malformedRecord with namespaces := [] }).1 ∧
    ((register exStore malformedRecord).1 = .ok ∧
     (register exStore malformedRecord).2 =
       update_app_service exStore malformedRecord) :=
  ⟨(register_ignores_patterns exStore malformedRecord []).1,
   (register_ignores_patterns exStore malformedRecord []).2 exRecord rfl⟩

/-- Claim C8: register distinguishes an unrecognised token from store
unavailability - only an unrecognised token produces the 403
permission-denied SynapseError, while an unavailable store propagates the
infrastructure error uncaught (a transient failure for the caller to
retry), never a SynapseError. -/
theorem register_error_taxonomy (st : AppStore) (r : ServiceRecord) :
    (get_app_service_by_token st r.token = .ok none →
      (register st r).1 = .synapseError 403 "M_FORBIDDEN") ∧
    (get_app_service_by_token st r.token = .error .unavailable →
      (register st r).1 = .uncaught .unavailable ∧
      ∀ c m, (register st r).1 ≠ .synapseError c m) := by
  constructor
  · intro h
    simp [register, h]
  · intro h
    refine ⟨by simp [register, h], ?_⟩
    intro c m
    simp [register, h]

/-- Witness for register_error_taxonomy: the empty store yields 403 for
exRecord, the unavailable store propagates the infrastructure error. -/
theorem register_error_taxonomy_witness :
    (register exStoreEmpty exRecord).1 = .synapseError 403 "M_FORBIDDEN" ∧
    (register exStoreDown exRecord).1 = .uncaught .unavailable :=
  ⟨(register_error_taxonomy exStoreEmpty exRecord).1 rfl,
   ((register_error_taxonomy exStoreDown exRecord).2 rfl).1⟩

/-- One specifier makes _check_requirement raise iff its marker requires
it here and it is not installed with a satisfying version. -/
theorem check_requirement_raises_iff (env : PkgEnv) (d : String) :
    (check_requirement env d).isSome = true ↔
      env.markerRequired d = true ∧ env.installState d ≠ .installed := by
  unfold check_requirement
  cases hm : env.markerRequired d <;> cases hi : env.installState d <;>
    simp [hm, hi]

/-- Claim C9: for a feature present in CONDITIONAL_REQUIREMENTS,
check_requirements(for_feature=feature) raises DependencyException iff at
least one of that feature's requirement specifiers whose environment
marker requires it is not installed or conflicts in version; otherwise it
returns normally. -/
theorem check_requirements_feature_iff (env : PkgEnv)
    (REQUIREMENTS : List String) (f : String) (reqs : List String)
    (hf : CONDITIONAL_REQUIREMENTS.lookup f = some reqs) :
    ((∃ ds, check_requirements env REQUIREMENTS (some f) =
        .error (.dependencyException ds)) ↔
      ∃ d ∈ reqs, env.markerRequired d = true ∧
        env.installState d ≠ .installed) ∧
    ((¬ ∃ d ∈ reqs, env.markerRequired d = true ∧
        env.installState d ≠ .installed) →
      check_requirements env REQUIREMENTS (some f) = .ok ()) := by
  have key : (¬ (reqs.filter
        (fun d => (check_requirement env d).isSome)).isEmpty = true) ↔
      ∃ d ∈ reqs, env.markerRequired d = true ∧
        env.installState d ≠ .installed := by
    simp only [List.isEmpty_iff, List.filter_eq_nil_iff, not_forall]
    constructor
    · rintro ⟨d, hd, h⟩
      exact ⟨d, hd, (check_requirement_raises_iff env d).mp (not_not.mp h)⟩
    · rintro ⟨d, hd, h⟩
      exact ⟨d, hd, not_not.mpr ((check_requirement_raises_iff env d).mpr h)⟩
  have hrw : check_requirements env REQUIREMENTS (some f) =
      (if (reqs.filter (fun d => (check_requirement env d).isSome)).isEmpty
       then .ok ()
       else .error (.dependencyException
         (reqs.filter (fun d => (check_requirement env d).isSome)))) := by
    simp [check_requirements, hf]
  by_cases hemp : (reqs.filter
      (fun d => (check_requirement env d).isSome)).isEmpty = true
  · rw [hrw, if_pos hemp]
    constructor
    · constructor
      · rintro ⟨ds, h⟩
        exact absurd h (by simp)
      · intro hex
        exact absurd hemp (by
          intro h
          exact (key.mpr hex) h)
    · intro _
      rfl
  · rw [hrw, if_neg hemp]
    constructor
    · constructor
      · intro _
        exact key.mp hemp
      · intro _
        exact ⟨_, rfl⟩
    · intro h
      exact absurd (key.mp hemp) h

/-- Witness for check_requirements_feature_iff at the saml2 feature in an
environment with nothing installed. -/
theorem check_requirements_feature_iff_witness :
    ((∃ ds, check_requirements envAllMissing [] (some "saml2") =
        .error (.dependencyException ds)) ↔
      ∃ d ∈ ["pysaml2>=4.5.0"], envAllMissing.markerRequired d = true ∧
        envAllMissing.installState d ≠ .installed) ∧
    ((¬ ∃ d ∈ ["pysaml2>=4.5.0"], envAllMissing.markerRequired d = true ∧
        envAllMissing.installState d ≠ .installed) →
      check_requirements envAllMissing [] (some "saml2") = .ok ()) :=
  check_requirements_feature_iff envAllMissing [] "saml2" ["pysaml2>=4.5.0"]
    (by decide)

/-- Claim C10: ALL_OPTIONAL_REQUIREMENTS is exactly the union of the
specifier lists of the non-systemd CONDITIONAL_REQUIREMENTS entries, and
in particular contains nothing from the systemd entry. -/
theorem all_optional_requirements_spec :
    ALL_OPTIONAL_REQUIREMENTS =
      (((CONDITIONAL_REQUIREMENTS.filter
          (fun p => p.1 != "systemd")).map Prod.snd).flatten).toFinset ∧
    "systemd-python>=231" ∉ ALL_OPTIONAL_REQUIREMENTS := by
  constructor
  · decide
  · decide

end Synapse
